import Mathlib

/-!
Verification of the MPC-Servers Visio backend against its specification.

The definitions below are a shallow embedding of the Python sources:
  - `src/src/backend/visio_service.py` (session manager, analysis engine,
    mutation engine, connection verifier),
  - `src/src/backend/server.py` (RPC dispatcher: stdio transport and the
    streaming dispatcher),
  - `src/src/backend/ollama_service.py` (AI-collaborator streaming layer).

Python dictionaries that carry heterogeneous JSON scalars are embedded as
association lists / a small scalar value type `IdVal`; Python truthiness
checks (`if page_name:`) are embedded explicitly; COM collection access
`Pages.Item(i)` is embedded as a fallible operation (it raises on an
out-of-range index); Python floats used for geometry are embedded as `Rat`.
-/

/-- A JSON scalar as it appears in request parameters and analysis records:
a string, a number, or Python `None` (also the result of a missing-key
`dict.get`).  Python `==` on such scalars never identifies a string with a
number, and `None == None` is `True`; `pyEq` embeds exactly that. -/
inductive IdVal where
  | strV (s : String)
  | numV (n : Int)
  | nullV
deriving DecidableEq, Repr

/-- Python `==` on the scalar fragment: equal only within the same kind. -/
def pyEq : IdVal → IdVal → Bool
  | .strV a, .strV b => a == b
  | .numV a, .numV b => a == b
  | .nullV, .nullV => true
  | _, _ => false

/-- Python string equality against a scalar: `str(x) == v` is `True` only
when `v` is the same string (a number is never equal to a string). -/
def pyEqStr (s : String) : IdVal → Bool
  | .strV t => s == t
  | _ => false

/-- Python truthiness of an optional string (`if page_name:`):
`None` and `""` are falsy. -/
def truthyStr : Option String → Bool
  | some s => !(s == "")
  | none => false

/-- Python truthiness of an optional integer (`if shape_id:`):
`None` and `0` are falsy. -/
def truthyInt : Option Int → Bool
  | some n => !(n == 0)
  | none => false

/-- A single-quote character, used to reproduce the quoted names inside the
validation messages of the source. -/
def quoteMark : String := String.singleton (Char.ofNat 39)

/-- Rendering of a scalar inside a Python f-string. -/
def IdVal.render : IdVal → String
  | .strV s => s
  | .numV n => toString n
  | .nullV => "None"

/-! ## Document model

`Shape.connects` embeds the COM `Shape.Connects` collection: each item has a
`FromSheet` and a `ToSheet`, of which the analysis code reads only `.ID` and
`.Name` (visio_service.py lines 312-327). -/

/-- One item of a connector shape's `Connects` collection. -/
structure Connect where
  fromId : Int
  fromName : String
  toId : Int
  toName : String
deriving DecidableEq, Repr

/-- A shape on a page: backend-assigned integer `id`, display `name`, a
type tag, optional text, pin position, size, and connect points. -/
structure Shape where
  id : Int
  name : String
  shapeType : Int
  text : String
  pinX : Rat
  pinY : Rat
  width : Rat
  height : Rat
  connects : List Connect
deriving DecidableEq, Repr

/-- A page: a name and an ordered sequence of shapes. -/
structure Page where
  name : String
  shapes : List Shape
deriving DecidableEq, Repr

/-- A document: ordered pages plus the names of the document's masters
(shape templates), which is all `_add_shapes` reads from `doc.Masters`. -/
structure Document where
  pages : List Page
  masters : List String
deriving DecidableEq, Repr

/-! ## Session manager (`_get_document_by_name`, `_get_or_open_document`) -/

/-- `os.path.basename`: the component after the last path separator
(`ntpath` treats both `/` and `\` as separators). -/
def baseName (p : String) : String :=
  String.mk (p.data.foldl
    (fun acc c => if c = '/' ∨ c = '\\' then [] else acc ++ [c]) [])

/-- The backend application's open-documents collection, by document name,
in `Documents.Item` order. -/
structure VisioApp where
  openDocs : List String
deriving DecidableEq, Repr

/-- `_get_document_by_name` (visio_service.py lines 68-77): scan the open
documents in order and return the first whose `Name` equals the base name of
the requested path. -/
def get_document_by_name (app : VisioApp) (fileName : String) : Option String :=
  app.openDocs.find? (fun n => n == baseName fileName)

/-- `_get_or_open_document` (lines 79-91): reuse an already-open document
(`owns_handle = false`, state unchanged), otherwise open the file
(`owns_handle = true`, its name joins the collection). -/
def get_or_open_document (app : VisioApp) (filePath : String) :
    (String × Bool) × VisioApp :=
  match get_document_by_name app filePath with
  | some d => ((d, false), app)
  | none =>
      ((baseName filePath, true),
       { app with openDocs := app.openDocs ++ [baseName filePath] })

/-! ## Analysis engine: `_analyze_diagram_connections` (lines 282-335)

The Python function returns a dict with exactly the keys `"pages"` and
`"total_connections"`; the embedding keeps the dict as an association list
so that the key lookups performed by `verify_connections` are literal. -/

/-- One `connection_info` record (lines 303-309): built per connector shape,
with `connects_from` / `connects_to` resolved from the connect items whose
sheet id differs from the connector's own id (later items overwrite). -/
structure ConnectionInfo where
  connector_id : Int
  connector_name : String
  text : String
  connects_from : Option (Int × String)
  connects_to : Option (Int × String)
deriving DecidableEq, Repr

/-- The per-connector endpoint resolution loop (lines 312-327). -/
def resolveEndpoints (shapeId : Int) (items : List Connect)
    (acc : Option (Int × String) × Option (Int × String)) :
    Option (Int × String) × Option (Int × String) :=
  match items with
  | [] => acc
  | c :: rest =>
      let fromAcc := if c.fromId ≠ shapeId then some (c.fromId, c.fromName) else acc.1
      let toAcc := if c.toId ≠ shapeId then some (c.toId, c.toName) else acc.2
      resolveEndpoints shapeId rest (fromAcc, toAcc)

/-- The per-page connections report (lines 292-330): for each shape with at
least one connect item, resolve endpoints and keep the record only when one
endpoint resolved. -/
structure PageConnections where
  name : String
  connections : List ConnectionInfo
deriving DecidableEq, Repr

def pageConnections (page : Page) : PageConnections :=
  { name := page.name,
    connections := page.shapes.filterMap (fun s =>
      if s.connects.length > 0 then
        let eps := resolveEndpoints s.id s.connects (none, none)
        let info : ConnectionInfo :=
          { connector_id := s.id, connector_name := s.name, text := s.text,
            connects_from := eps.1, connects_to := eps.2 }
        if eps.1.isSome || eps.2.isSome then some info else none
      else none) }

/-- A value stored in (or read from) the analysis-result dict.  The dict
built by `_analyze_diagram_connections` stores a page list under `"pages"`
and a count under `"total_connections"`; `verify_connections` *reads* the
key `"connections"` and iterates its value as a list of records with scalar
fields, which `connsV` represents — no code path ever stores it. -/
inductive AnalysisVal where
  | pagesV (l : List PageConnections)
  | natV (n : Nat)
  | connsV (l : List (List (String × IdVal)))
deriving DecidableEq, Repr

/-- `_analyze_diagram_connections`: the returned dict, with its two keys. -/
def analyze_diagram_connections (doc : Document) : List (String × AnalysisVal) :=
  let pages := doc.pages.map pageConnections
  [("pages", AnalysisVal.pagesV pages),
   ("total_connections",
    AnalysisVal.natV (pages.foldl (fun acc p => acc + p.connections.length) 0))]

/-! ## Connection verifier (`verify_connections`, lines 827-924, and
`_validate_shapes_for_connection`, lines 926-981) -/

/-- `dict.get(key)` on a record of scalars: `None` when the key is absent. -/
def pyGet (d : List (String × IdVal)) (key : String) : IdVal :=
  match d.lookup key with
  | some v => v
  | none => IdVal.nullV

/-- One requested connection attempt: the caller-supplied scalars for
`from_shape_id`, `to_shape_id` and `page_name` (each possibly absent). -/
structure ConnectionAttempt where
  from_shape_id : IdVal
  to_shape_id : IdVal
  page_name : IdVal
deriving DecidableEq, Repr

/-- The result dict of `_validate_shapes_for_connection`. -/
structure ValidationResult where
  valid : Bool
  message : String
deriving DecidableEq, Repr

/-- The shape-search loop of `_validate_shapes_for_connection`
(lines 947-957): per shape, `if str(ID) == from_id` set the source, `elif
str(ID) == to_id` set the target; break once both are found. -/
def findConnShapes (shapes : List Shape) (fromAcc toAcc : Option Shape)
    (fromId toId : IdVal) : Option Shape × Option Shape :=
  match shapes with
  | [] => (fromAcc, toAcc)
  | s :: rest =>
      let isFrom := pyEqStr (toString s.id) fromId
      let fromAcc' := if isFrom then some s else fromAcc
      let toAcc' := if !isFrom && pyEqStr (toString s.id) toId then some s else toAcc
      if fromAcc'.isSome && toAcc'.isSome then (fromAcc', toAcc')
      else findConnShapes rest fromAcc' toAcc' fromId toId

/-- `_validate_shapes_for_connection`: find the page by name, then both
shapes by the *string form* of their integer id. -/
def validate_shapes_for_connection (doc : Document)
    (fromId toId pageName : IdVal) : ValidationResult :=
  match doc.pages.find? (fun p => pyEqStr p.name pageName) with
  | none =>
      { valid := false,
        message := "Page " ++ quoteMark ++ pageName.render ++ quoteMark ++ " not found" }
  | some page =>
      match findConnShapes page.shapes none none fromId toId with
      | (none, _) =>
          { valid := false,
            message := "Source shape with ID " ++ quoteMark ++ fromId.render ++ quoteMark
              ++ " not found on page " ++ quoteMark ++ pageName.render ++ quoteMark }
      | (some _, none) =>
          { valid := false,
            message := "Target shape with ID " ++ quoteMark ++ toId.render ++ quoteMark
              ++ " not found on page " ++ quoteMark ++ pageName.render ++ quoteMark }
      | (some _, some _) =>
          { valid := true, message := "Shapes are valid for connection" }

/-- `existing_connections = connections_analysis.get("connections", [])`
(line 869): the dict built by `analyze_diagram_connections` is probed for a
`"connections"` key; absent (or bound to a non-record-list value, which the
analyzer never stores), the loop below runs over the empty list. -/
def existingConnections (analysis : List (String × AnalysisVal)) :
    List (List (String × IdVal)) :=
  match analysis.lookup "connections" with
  | some (AnalysisVal.connsV l) => l
  | some _ => []
  | none => []

/-- The existence check of lines 879-885: first record whose
`from_shape_id`, `to_shape_id` and `page_name` all compare `==` to the
attempt's scalars. -/
def connectionExistsCheck (existing : List (List (String × IdVal)))
    (att : ConnectionAttempt) : Bool :=
  existing.any (fun conn =>
    pyEq (pyGet conn "from_shape_id") att.from_shape_id &&
    pyEq (pyGet conn "to_shape_id") att.to_shape_id &&
    pyEq (pyGet conn "page_name") att.page_name)

/-- One verification record (lines 890-897). -/
structure VerificationRecord where
  from_shape_id : IdVal
  to_shape_id : IdVal
  page_name : IdVal
  connection_exists : Bool
  shapes_valid : Bool
  validation_message : String
deriving DecidableEq, Repr

/-- `verify_connections` (body, lines 867-902): recompute the connections
analysis, extract `existing_connections`, and emit one record per attempt. -/
def verify_connections (doc : Document) (attempts : List ConnectionAttempt) :
    List VerificationRecord :=
  let analysis := analyze_diagram_connections doc
  let existing := existingConnections analysis
  attempts.map (fun att =>
    let validation := validate_shapes_for_connection doc
      att.from_shape_id att.to_shape_id att.page_name
    { from_shape_id := att.from_shape_id,
      to_shape_id := att.to_shape_id,
      page_name := att.page_name,
      connection_exists := connectionExistsCheck existing att,
      shapes_valid := validation.valid,
      validation_message := validation.message })

/-! ## Mutation engine (`modify_visio_diagram` and the four instruction
appliers, visio_service.py lines 370-677)

Per-instruction page resolution is shared (lines 480-492 and replicas): an
exact-name scan when `page_name` is truthy, otherwise `Pages.Item(page_index)`,
which raises on an out-of-range 1-based index (a COM collection error) —
embedded with `Except`. -/

/-- Page resolution: `.ok none` means "named page not found" (the caller
logs a warning and skips); `.error` means `Pages.Item` raised. -/
def findPageIdx (doc : Document) (pname : Option String) (pidx : Int) :
    Except String (Option Nat) :=
  if truthyStr pname then
    Except.ok (doc.pages.findIdx? (fun p => p.name == pname.getD ""))
  else if 1 ≤ pidx ∧ pidx ≤ (doc.pages.length : Int) then
    Except.ok (some (pidx.toNat - 1))
  else
    Except.error ("Invalid page index: " ++ toString pidx)

/-- Replace the page at an index via an in-place edit. -/
def Document.withPage (doc : Document) (pi : Nat) (f : Page → Page) : Document :=
  match doc.pages[pi]? with
  | some p => { doc with pages := doc.pages.set pi (f p) }
  | none => doc

/-- The largest shape id in the document; the backend assigns fresh ids
above it.  (Shape ids are backend-assigned; the model makes that policy
concrete and executable.) -/
def Document.maxId (doc : Document) : Int :=
  doc.pages.foldl (fun acc p => p.shapes.foldl (fun a s => max a s.id) acc) 0

def freshId (doc : Document) : Int := doc.maxId + 1

/-- `page.Drop(master, x, y)` (line 505): a fresh shape instantiated from a
master, pinned at `(x, y)`, with empty text. -/
def dropMaster (doc : Document) (masterName : String) (x y : Rat) : Shape :=
  { id := freshId doc, name := masterName, shapeType := 1, text := "",
    pinX := x, pinY := y, width := 1, height := 1, connects := [] }

/-- `page.DrawRectangle(x, y, x + 2, y + 1)` (line 511): a default
rectangle whose corners span 2 by 1 drawing units from `(x, y)`. -/
def drawRectangle (doc : Document) (x y : Rat) : Shape :=
  { id := freshId doc, name := "Sheet." ++ toString (freshId doc),
    shapeType := 1, text := "",
    pinX := x + 1, pinY := y + 1 / 2, width := 2, height := 1, connects := [] }

/-- `if text: shape.Text = text` — applied only when the text is truthy. -/
def applyTextIf (t : String) (s : Shape) : Shape :=
  if t == "" then s else { s with text := t }

/-- One `add_shapes` instruction with the defaults of lines 477-498
(`page_index` 1, `x`/`y` 4, `text` `""`, `master` possibly absent). -/
structure AddInstr where
  page_name : Option String := none
  page_index : Int := 1
  master : Option String := none
  x : Rat := 4
  y : Rat := 4
  text : String := ""
deriving DecidableEq, Repr

/-- `_add_shapes`, one instruction (lines 476-513): resolve the page (skip
with a warning when a named page is missing); when a master is named, scan
`doc.Masters` and drop it when found — a named-but-missing master adds
nothing (the loop simply finds no match); only when *no* master is named is
the default rectangle drawn.  The optional text is applied after placement
on both placing paths. -/
def addShapeInstr (doc : Document) (i : AddInstr) : Except String Document :=
  match findPageIdx doc i.page_name i.page_index with
  | Except.error e => Except.error e
  | Except.ok none => Except.ok doc
  | Except.ok (some pi) =>
      if truthyStr i.master then
        match doc.masters.find? (fun m => m == i.master.getD "") with
        | some m =>
            Except.ok (doc.withPage pi (fun p =>
              { p with shapes := p.shapes ++ [applyTextIf i.text (dropMaster doc m i.x i.y)] }))
        | none => Except.ok doc
      else
        Except.ok (doc.withPage pi (fun p =>
          { p with shapes := p.shapes ++ [applyTextIf i.text (drawRectangle doc i.x i.y)] }))

def add_shapes (doc : Document) (l : List AddInstr) : Except String Document :=
  l.foldlM addShapeInstr doc

/-- The `"position"` sub-dict of an update instruction: `x` and `y` read
with `.get` (lines 559-560). -/
structure PosInstr where
  x : Option Rat
  y : Option Rat
deriving DecidableEq, Repr

/-- One `update_shapes` instruction (lines 518-521, 555-558): `text` is
present iff the `"text"` key is, `position` iff the `"position"` key is. -/
structure UpdInstr where
  page_name : Option String := none
  page_index : Int := 1
  shape_id : Option Int := none
  shape_name : Option String := none
  text : Option String := none
  position : Option PosInstr := none
deriving DecidableEq, Repr

/-- The shape-resolution shared by update/delete (lines 538-548): by id when
the id is truthy, else by name when the name is truthy, first match wins. -/
def findShapeIdx (page : Page) (sid : Option Int) (sname : Option String) :
    Option Nat :=
  if truthyInt sid then
    page.shapes.findIdx? (fun s => s.id == sid.getD 0)
  else if truthyStr sname then
    page.shapes.findIdx? (fun s => s.name == sname.getD "")
  else none

/-- Field application of lines 554-562: set the text only when a `"text"`
key is present; change the position only when a `"position"` key is present
with both `x` and `y` non-`None`. -/
def applyUpdate (i : UpdInstr) (s : Shape) : Shape :=
  let s1 := match i.text with
    | some t => { s with text := t }
    | none => s
  match i.position with
  | some p =>
      match p.x, p.y with
      | some x, some y => { s1 with pinX := x, pinY := y }
      | _, _ => s1
  | none => s1

/-- `_update_shapes`, one instruction (lines 517-562). -/
def updateShapeInstr (doc : Document) (i : UpdInstr) : Except String Document :=
  match findPageIdx doc i.page_name i.page_index with
  | Except.error e => Except.error e
  | Except.ok none => Except.ok doc
  | Except.ok (some pi) =>
      match doc.pages[pi]? with
      | none => Except.ok doc
      | some page =>
          match findShapeIdx page i.shape_id i.shape_name with
          | none => Except.ok doc
          | some k =>
              match page.shapes[k]? with
              | none => Except.ok doc
              | some s =>
                  Except.ok (doc.withPage pi (fun p =>
                    { p with shapes := p.shapes.set k (applyUpdate i s) }))

def update_shapes (doc : Document) (l : List UpdInstr) : Except String Document :=
  l.foldlM updateShapeInstr doc

/-- One `delete_shapes` instruction (lines 566-570). -/
structure DelInstr where
  page_name : Option String := none
  page_index : Int := 1
  shape_id : Option Int := none
  shape_name : Option String := none
deriving DecidableEq, Repr

/-- `_delete_shapes`, one instruction (lines 566-604): resolve and remove. -/
def deleteShapeInstr (doc : Document) (i : DelInstr) : Except String Document :=
  match findPageIdx doc i.page_name i.page_index with
  | Except.error e => Except.error e
  | Except.ok none => Except.ok doc
  | Except.ok (some pi) =>
      match doc.pages[pi]? with
      | none => Except.ok doc
      | some page =>
          match findShapeIdx page i.shape_id i.shape_name with
          | none => Except.ok doc
          | some k =>
              Except.ok (doc.withPage pi (fun p =>
                { p with shapes := p.shapes.eraseIdx k }))

def delete_shapes (doc : Document) (l : List DelInstr) : Except String Document :=
  l.foldlM deleteShapeInstr doc

/-- One `add_connections` instruction (lines 609-614). -/
structure ConnInstr where
  page_name : Option String := none
  page_index : Int := 1
  from_shape_id : Option Int := none
  to_shape_id : Option Int := none
  from_shape_name : Option String := none
  to_shape_name : Option String := none
  text : Option String := none
deriving DecidableEq, Repr

/-- `_add_connections`, one instruction (lines 608-677): resolve the page
and both endpoint shapes (skip with a warning on failure), then drop a
`"Dynamic connector"` master at the midpoint of the endpoints' pins
(`ItemU` raises when the builtin master is absent from the stencil), glue
its ends to the two shapes, and set the optional text. -/
def addConnectionInstr (doc : Document) (i : ConnInstr) : Except String Document :=
  match findPageIdx doc i.page_name i.page_index with
  | Except.error e => Except.error e
  | Except.ok none => Except.ok doc
  | Except.ok (some pi) =>
      match doc.pages[pi]? with
      | none => Except.ok doc
      | some page =>
          match findShapeIdx page i.from_shape_id i.from_shape_name with
          | none => Except.ok doc
          | some kf =>
              match page.shapes[kf]? with
              | none => Except.ok doc
              | some fromShape =>
                  match findShapeIdx page i.to_shape_id i.to_shape_name with
                  | none => Except.ok doc
                  | some kt =>
                      match page.shapes[kt]? with
                      | none => Except.ok doc
                      | some toShape =>
                          if (doc.masters.contains "Dynamic connector") then
                            let cid := freshId doc
                            let connector : Shape :=
                              { id := cid, name := "Dynamic connector",
                                shapeType := 1,
                                text := "",
                                pinX := (fromShape.pinX + toShape.pinX) / 2,
                                pinY := (fromShape.pinY + toShape.pinY) / 2,
                                width := 1, height := 1,
                                connects :=
                                  [{ fromId := cid, fromName := "Dynamic connector",
                                     toId := fromShape.id, toName := fromShape.name },
                                   { fromId := cid, fromName := "Dynamic connector",
                                     toId := toShape.id, toName := toShape.name }] }
                            let connector :=
                              match i.text with
                              | some t => { connector with text := t }
                              | none => connector
                            Except.ok (doc.withPage pi (fun p =>
                              { p with shapes := p.shapes ++ [connector] }))
                          else
                            Except.error "Dynamic connector master not found"

def add_connections (doc : Document) (l : List ConnInstr) : Except String Document :=
  l.foldlM addConnectionInstr doc

/-! ## Batch application: `modify_visio_diagram` (lines 412-457)

The `modification_instructions` dict is embedded as an association list of
entries whose key is determined by the constructor (mirroring the JSON
schema, under which each of the four keys carries its own record shape);
the list order is the key order of the incoming JSON object. -/

/-- One key/value entry of the `modification_instructions` object. -/
inductive DictEntry where
  | addEntry (l : List AddInstr)
  | updEntry (l : List UpdInstr)
  | delEntry (l : List DelInstr)
  | connEntry (l : List ConnInstr)
deriving DecidableEq, Repr

/-- The JSON key of an entry. -/
def entryKey : DictEntry → String
  | .addEntry _ => "add_shapes"
  | .updEntry _ => "update_shapes"
  | .delEntry _ => "delete_shapes"
  | .connEntry _ => "add_connections"

/-- `"add_shapes" in modification_instructions` and its three analogues. -/
def hasAdds (m : List DictEntry) : Bool :=
  m.any (fun e => match e with | .addEntry _ => true | _ => false)

def hasUpds (m : List DictEntry) : Bool :=
  m.any (fun e => match e with | .updEntry _ => true | _ => false)

def hasDels (m : List DictEntry) : Bool :=
  m.any (fun e => match e with | .delEntry _ => true | _ => false)

def hasConns (m : List DictEntry) : Bool :=
  m.any (fun e => match e with | .connEntry _ => true | _ => false)

/-- `modification_instructions["add_shapes"]` and its three analogues
(the payload of the first entry carrying the key). -/
def getAdds (m : List DictEntry) : List AddInstr :=
  match m.find? (fun e => match e with | .addEntry _ => true | _ => false) with
  | some (.addEntry l) => l
  | _ => []

def getUpds (m : List DictEntry) : List UpdInstr :=
  match m.find? (fun e => match e with | .updEntry _ => true | _ => false) with
  | some (.updEntry l) => l
  | _ => []

def getDels (m : List DictEntry) : List DelInstr :=
  match m.find? (fun e => match e with | .delEntry _ => true | _ => false) with
  | some (.delEntry l) => l
  | _ => []

def getConns (m : List DictEntry) : List ConnInstr :=
  match m.find? (fun e => match e with | .connEntry _ => true | _ => false) with
  | some (.connEntry l) => l
  | _ => []

/-- The body of `modify_visio_diagram` (lines 412-423): the four key checks
are made in program order — adds, then updates, then deletes, then
connections — irrespective of where the keys sit in the input object. -/
def modify_visio_diagram (doc : Document) (m : List DictEntry) :
    Except String Document :=
  match (if hasAdds m then add_shapes doc (getAdds m) else Except.ok doc) with
  | Except.error e => Except.error e
  | Except.ok d1 =>
      match (if hasUpds m then update_shapes d1 (getUpds m) else Except.ok d1) with
      | Except.error e => Except.error e
      | Except.ok d2 =>
          match (if hasDels m then delete_shapes d2 (getDels m) else Except.ok d2) with
          | Except.error e => Except.error e
          | Except.ok d3 =>
              if hasConns m then add_connections d3 (getConns m) else Except.ok d3

/-- The top-level result dict of `modify_visio_diagram`: the `try` body
returns `status "success"` (line 434); the broad `except` of lines 452-457
converts any raised error into a top-level `status "error"` result. -/
structure ModifyResult where
  status : String
  message : String
  doc : Option Document
deriving DecidableEq, Repr

def modify_visio_diagram_result (doc : Document) (m : List DictEntry) :
    ModifyResult :=
  match modify_visio_diagram doc m with
  | Except.ok d =>
      { status := "success", message := "Diagram modified successfully",
        doc := some d }
  | Except.error e =>
      { status := "error",
        message := "Failed to modify Visio diagram: " ++ e, doc := none }

/-! ## Document acquisition and cleanup (`analyze_visio_diagram` lines
178-248, `modify_visio_diagram` lines 381-472, `verify_connections` lines
838-924)

All three request handlers share the same skeleton: decide whether the
input is an existing path (reuse-or-open) or base64 content (materialize to
a temp file, then open), run the body, and in a `finally` block delete any
temp file and close the document only when `doc is not None and
should_close_doc and temp_file is not None`.  The skeleton is embedded as
pure control flow over the acquisition case. -/

/-- How the request's `file_path_or_content` resolves. -/
inductive DocInput where
  | pathOpen
  | pathNotOpen
  | contentB
deriving DecidableEq, Repr

/-- The three locals that the `finally` block reads, as set by the
acquisition code for each input case (`openFailed` covers `Documents.Open`
raising after the temp file was written, leaving `doc` unassigned and
`should_close_doc` still false). -/
structure AcquireState where
  docSome : Bool
  shouldCloseDoc : Bool
  tempSome : Bool
deriving DecidableEq, Repr

def acquireDocument : DocInput → Bool → AcquireState
  | .pathOpen, _ => { docSome := true, shouldCloseDoc := false, tempSome := false }
  | .pathNotOpen, false => { docSome := true, shouldCloseDoc := true, tempSome := false }
  | .pathNotOpen, true => { docSome := false, shouldCloseDoc := false, tempSome := false }
  | .contentB, false => { docSome := true, shouldCloseDoc := true, tempSome := true }
  | .contentB, true => { docSome := false, shouldCloseDoc := false, tempSome := true }

/-- What the `finally` block does. -/
structure CleanupAction where
  tempDeleted : Bool
  docClosed : Bool
deriving DecidableEq, Repr

/-- The shared `finally` block: `os.unlink` whenever a temp file exists;
`doc.Close()` only under the triple guard. -/
def finallyCleanup (st : AcquireState) : CleanupAction :=
  { tempDeleted := st.tempSome,
    docClosed := st.docSome && st.shouldCloseDoc && st.tempSome }

/-- Cleanup of `analyze_visio_diagram` (lines 235-248): the `bodyFailed`
argument records whether the `try` body returned normally or the `except`
arm ran — the `finally` block is the same either way. -/
def analyze_visio_diagram_cleanup (inp : DocInput)
    (openFailed bodyFailed : Bool) : CleanupAction :=
  match bodyFailed with
  | _ => finallyCleanup (acquireDocument inp openFailed)

/-- Cleanup of `modify_visio_diagram` (lines 459-472). -/
def modify_visio_diagram_cleanup (inp : DocInput)
    (openFailed bodyFailed : Bool) : CleanupAction :=
  match bodyFailed with
  | _ => finallyCleanup (acquireDocument inp openFailed)

/-- Cleanup of `verify_connections` (lines 911-924). -/
def verify_connections_cleanup (inp : DocInput)
    (openFailed bodyFailed : Bool) : CleanupAction :=
  match bodyFailed with
  | _ => finallyCleanup (acquireDocument inp openFailed)

/-- The cleanup contract as the specification words it: release any temp
file; close the handle only when the call owns it *and* it is backed by a
temp file (so: only the content case, and only when the open succeeded). -/
def specCleanup (inp : DocInput) (openFailed : Bool) : CleanupAction :=
  { tempDeleted := decide (inp = DocInput.contentB),
    docClosed := decide (inp = DocInput.contentB) && !openFailed }

/-! ## Streaming dispatcher (`process_stream_message`, server.py lines
117-141) over the AI collaborator's chunk stream

`server.py` invokes `ollama_service.chat_stream(messages, model, context)`.
No method of that name exists in the sources; only its caller does. -/

/-- One line of the upstream HTTP response body as the collaborator's
stream-reading loop sees it: a parseable JSON chunk carrying a `response`
fragment and a `done` flag, a blank line (skipped by `if line:`), or a
non-JSON line (skipped with a warning). -/
inductive RawLine where
  | okLine (response : String) (done : Bool)
  | blank
  | malformedLine
deriving DecidableEq, Repr

/-- One chunk yielded to the dispatcher. -/
structure ChatChunk where
  answer_chunk : String
  done : Bool
deriving DecidableEq, Repr

/-- Modelled from the spec: `chatStream(messages, model, context) -> stream
of {fragment, done}` — the AI-collaborator method `OllamaService.chat_stream`
that `process_stream_message` iterates is absent from the sources.  It is
modelled on the spec's collaborator interface with the stream shape of the
repository's `OllamaService.ask_about_visio_stream` (ollama_service.py
lines 147-179): one chunk per parseable line of the upstream response
(`done` read with default `False`), then an unconditionally synthesized
terminal chunk with `done = True`. -/
def chat_stream (raw : List RawLine) : List ChatChunk :=
  (raw.filterMap (fun l =>
    match l with
    | RawLine.okLine r d => some { answer_chunk := r, done := d }
    | RawLine.blank => none
    | RawLine.malformedLine => none)) ++
  [{ answer_chunk := "", done := true }]

/-- One response envelope of the event-stream transport. -/
structure StreamEnvelope where
  id : Option String
  result : ChatChunk
deriving DecidableEq, Repr

/-- `process_stream_message` on the `ask_ai_about_visio` method (lines
123-133): one envelope yielded per chunk received from the collaborator,
each echoing the request id and carrying the chunk as its `result`. -/
def process_stream_message (reqId : Option String) (raw : List RawLine) :
    List StreamEnvelope :=
  (chat_stream raw).map (fun c => { id := reqId, result := c })

/-! ## Line-oriented stdio transport (`run_stdio_transport`, server.py
lines 171-183) -/

/-- An abstract well-formed request message (the dispatcher's behaviour on
it is not at issue for the transport claim). -/
structure RpcMessage where
  method : String
  rawParams : List (String × IdVal)
deriving DecidableEq, Repr

/-- One line read from stdin: either JSON that parses to a message, or a
malformed line (`json.loads` raises `JSONDecodeError`). -/
inductive InLine where
  | wellFormed (m : RpcMessage)
  | malformed (s : String)
deriving DecidableEq, Repr

/-- A structured error object `{code, message}`. -/
structure ErrObj where
  code : Int
  message : String
deriving DecidableEq, Repr

/-- One line printed (and flushed) on stdout: either the dispatcher's
response to a parsed message, or an error envelope. -/
inductive OutLine where
  | response (m : RpcMessage)
  | errLine (e : ErrObj)
deriving DecidableEq, Repr

/-- `run_stdio_transport` (lines 171-183): for each input line, parse and
answer; a `JSONDecodeError` produces exactly one flushed
`{"error": {"code": -32700, "message": "Parse error"}}` line and the loop
proceeds to the next line.  (`process_message` traps every exception
internally and always returns an envelope, embedded as `OutLine.response`.) -/
def run_stdio_transport (input : List InLine) : List OutLine :=
  input.map (fun l =>
    match l with
    | InLine.wellFormed m => OutLine.response m
    | InLine.malformed _ => OutLine.errLine { code := -32700, message := "Parse error" })

/-! ## Helper lemmas -/

/-- `existing_connections` is the empty list for every document: the dict
returned by `analyze_diagram_connections` has no `"connections"` key. -/
theorem existingConnections_analyze (doc : Document) :
    existingConnections (analyze_diagram_connections doc) = [] := rfl

/-! ## Claim theorems -/

/-- Claim C1: the source-level check `connections_analysis.get("connections",
[])` probes a key the analysis dict never carries, so every verification
record reports `connection_exists = false`, even for a pair that a connector
on the page demonstrably links — the specified true/false distinction never
materializes. -/
theorem verify_connections_connection_exists_always_false
    (doc : Document) (attempts : List ConnectionAttempt)
    (r : VerificationRecord) (hr : r ∈ verify_connections doc attempts) :
    r.connection_exists = false := by
  simp only [verify_connections, List.mem_map] at hr
  obtain ⟨att, _, rfl⟩ := hr
  simp [connectionExistsCheck, existingConnections_analyze]

/-- Claim C5: for `analyze_visio_diagram`, `modify_visio_diagram` and
`verify_connections`, on every exit path (body success or failure), the
`finally` block deletes exactly the temp file the call created and closes
the document only when the call both opened it and it was backed by a temp
file — a reused document and a document opened from an existing
caller-supplied path are never closed. -/
theorem cleanup_matches_spec :
    ∀ (inp : DocInput) (openFailed bodyFailed : Bool),
      analyze_visio_diagram_cleanup inp openFailed bodyFailed = specCleanup inp openFailed ∧
      modify_visio_diagram_cleanup inp openFailed bodyFailed = specCleanup inp openFailed ∧
      verify_connections_cleanup inp openFailed bodyFailed = specCleanup inp openFailed := by
  intro inp openFailed bodyFailed
  cases inp <;> cases openFailed <;> cases bodyFailed <;> exact ⟨rfl, rfl, rfl⟩

/-- Claim C6: for every collaborator stream, the dispatcher emits exactly
one response envelope per chunk received from the AI collaborator, and the
final emitted envelope always carries `done = true` — even when no raw
upstream line carried a terminal marker, because the collaborator layer
synthesizes one. -/
theorem stream_final_envelope_done (reqId : Option String) (raw : List RawLine) :
    (process_stream_message reqId raw).length = (chat_stream raw).length ∧
    ∃ e, (process_stream_message reqId raw).getLast? = some e ∧
      e.result.done = true := by
  constructor
  · simp [process_stream_message]
  · refine ⟨{ id := reqId, result := { answer_chunk := "", done := true } }, ?_, rfl⟩
    simp [process_stream_message, chat_stream]

/-- Claim C7: a malformed line on the stdio transport produces exactly one
response line, the `-32700` "Parse error" envelope, and the transport keeps
answering the remaining lines exactly as it would have without the bad
line. -/
theorem stdio_malformed_line_single_error (xs ys : List InLine) (s : String) :
    run_stdio_transport (xs ++ InLine.malformed s :: ys) =
      run_stdio_transport xs ++
        OutLine.errLine { code := -32700, message := "Parse error" } ::
        run_stdio_transport ys := by
  simp [run_stdio_transport]

/-- Claim C8: when a document with the requested path's base name is already
open, `_get_or_open_document` returns it with `owns_handle = false` and
leaves the open-documents collection unchanged; a second call with the same
path again returns `owns_handle = false`, and the number of open documents
carrying that base name never grows. -/
theorem get_or_open_reuse_idempotent (app : VisioApp) (p : String) (d : String)
    (h : get_document_by_name app p = some d) :
    get_or_open_document app p = ((d, false), app) ∧
    get_or_open_document (get_or_open_document app p).2 p = ((d, false), app) ∧
    (get_or_open_document app p).2.openDocs.count (baseName p) =
      app.openDocs.count (baseName p) := by
  refine ⟨?_, ?_, ?_⟩ <;> simp [get_or_open_document, h]

/-! ## Concrete witness data -/

/-- A plain (non-connector) shape for witness documents. -/
def mkShape (i : Int) (nm : String) : Shape :=
  { id := i, name := nm, shapeType := 1, text := "", pinX := 0, pinY := 0,
    width := 1, height := 1, connects := [] }

/-- A connector shape glued from shape `a` to shape `b` (its `Connects`
items have the connector as `FromSheet` and the endpoint as `ToSheet`, as
the automation backend reports them). -/
def mkConnector (i : Int) (a b : Shape) : Shape :=
  { id := i, name := "Dynamic connector", shapeType := 1, text := "",
    pinX := 0, pinY := 0, width := 1, height := 1,
    connects :=
      [{ fromId := i, fromName := "Dynamic connector", toId := a.id, toName := a.name },
       { fromId := i, fromName := "Dynamic connector", toId := b.id, toName := b.name }] }

/-- Witness document: `Page-1` holds shapes 1 and 2 and a connector (id 3)
linking them. -/
def docW : Document :=
  { pages := [{ name := "Page-1",
                shapes := [mkShape 1 "Start", mkShape 2 "End",
                           mkConnector 3 (mkShape 1 "Start") (mkShape 2 "End")] }],
    masters := ["Square", "Dynamic connector"] }

/-- The attempt naming the connected pair `(1, 2)` on `Page-1` by digit
strings. -/
def attW : ConnectionAttempt :=
  { from_shape_id := IdVal.strV "1", to_shape_id := IdVal.strV "2",
    page_name := IdVal.strV "Page-1" }

/-- The record `verify_connections` actually produces for `attW` on `docW`:
the shapes validate, yet `connection_exists` is `false` although the
connector links exactly that pair on that page. -/
def recW : VerificationRecord :=
  { from_shape_id := IdVal.strV "1", to_shape_id := IdVal.strV "2",
    page_name := IdVal.strV "Page-1", connection_exists := false,
    shapes_valid := true, validation_message := "Shapes are valid for connection" }

/-- Witness for C1 at the failing input: on `docW`, whose only page carries
a connector linking shapes 1 and 2, the produced record still reports
`connection_exists = false`. -/
theorem verify_connections_connection_exists_always_false_witness :
    recW ∈ verify_connections docW [attW] ∧ recW.connection_exists = false :=
  ⟨by decide,
   verify_connections_connection_exists_always_false docW [attW] recW (by decide)⟩

/-- Witness for C8: with `test.vsdx` already open, requesting the path
`C:\files\test.vsdx` reuses it, twice, with `owns_handle = false`. -/
theorem get_or_open_reuse_idempotent_witness :
    get_document_by_name { openDocs := ["test.vsdx"] } "C:\\files\\test.vsdx" =
      some "test.vsdx" ∧
    get_or_open_document { openDocs := ["test.vsdx"] } "C:\\files\\test.vsdx" =
      (("test.vsdx", false), { openDocs := ["test.vsdx"] }) :=
  ⟨by decide,
   (get_or_open_reuse_idempotent { openDocs := ["test.vsdx"] }
     "C:\\files\\test.vsdx" "test.vsdx" (by decide)).1⟩

/-- A numeric scalar never passes the `str(shape.ID) == from_shape_id`
comparison, so the source-shape slot of the search loop stays empty. -/
theorem findConnShapes_numV_fst (n : Int) (tid : IdVal) :
    ∀ (shapes : List Shape) (t : Option Shape),
      (findConnShapes shapes none t (IdVal.numV n) tid).1 = none := by
  intro shapes
  induction shapes with
  | nil => intro t; rfl
  | cons s rest ih =>
      intro t
      simpa [findConnShapes, pyEqStr] using ih _

/-- Provenance of the two slots of the search loop: a filled slot either
came in filled or holds a shape of the scanned list whose stringified id
passed the corresponding `==` comparison. -/
theorem findConnShapes_spec (fid tid : IdVal) :
    ∀ (shapes : List Shape) (f t : Option Shape),
      (∀ s, (findConnShapes shapes f t fid tid).1 = some s →
        f = some s ∨ (s ∈ shapes ∧ pyEqStr (toString s.id) fid = true)) ∧
      (∀ s, (findConnShapes shapes f t fid tid).2 = some s →
        t = some s ∨ (s ∈ shapes ∧ pyEqStr (toString s.id) tid = true)) := by
  intro shapes
  induction shapes with
  | nil => intro f t; exact ⟨fun s h => Or.inl h, fun s h => Or.inl h⟩
  | cons x rest ih =>
      intro f t
      rw [findConnShapes]
      have fromStep : ∀ s,
          (if pyEqStr (toString x.id) fid then some x else f) = some s →
          f = some s ∨ (s ∈ x :: rest ∧ pyEqStr (toString s.id) fid = true) := by
        intro s hs
        by_cases hf : pyEqStr (toString x.id) fid = true
        · rw [if_pos hf] at hs
          have hx : x = s := Option.some_inj.mp hs
          subst hx
          exact Or.inr ⟨List.mem_cons_self _ _, hf⟩
        · rw [if_neg hf] at hs; exact Or.inl hs
      have toStep : ∀ s,
          (if !pyEqStr (toString x.id) fid && pyEqStr (toString x.id) tid
           then some x else t) = some s →
          t = some s ∨ (s ∈ x :: rest ∧ pyEqStr (toString s.id) tid = true) := by
        intro s hs
        by_cases ht : (!pyEqStr (toString x.id) fid &&
            pyEqStr (toString x.id) tid) = true
        · rw [if_pos ht] at hs
          have hx : x = s := Option.some_inj.mp hs
          subst hx
          have ht2 : pyEqStr (toString x.id) tid = true := by
            simp only [Bool.and_eq_true] at ht; exact ht.2
          exact Or.inr ⟨List.mem_cons_self _ _, ht2⟩
        · rw [if_neg ht] at hs; exact Or.inl hs
      by_cases hbreak :
          ((if pyEqStr (toString x.id) fid then some x else f).isSome &&
           (if !pyEqStr (toString x.id) fid && pyEqStr (toString x.id) tid
            then some x else t).isSome) = true
      · rw [if_pos hbreak]
        exact ⟨fun s hs => fromStep s hs, fun s hs => toStep s hs⟩
      · rw [if_neg hbreak]
        obtain ⟨ih1, ih2⟩ := ih
          (if pyEqStr (toString x.id) fid then some x else f)
          (if !pyEqStr (toString x.id) fid && pyEqStr (toString x.id) tid
           then some x else t)
        constructor
        · intro s hs
          rcases ih1 s hs with h | h
          · exact fromStep s h
          · exact Or.inr ⟨List.mem_cons_of_mem _ h.1, h.2⟩
        · intro s hs
          rcases ih2 s hs with h | h
          · exact toStep s h
          · exact Or.inr ⟨List.mem_cons_of_mem _ h.1, h.2⟩

/-- A passed string comparison pins down the scalar. -/
theorem pyEqStr_eq {s : String} {v : IdVal} (h : pyEqStr s v = true) :
    v = IdVal.strV s := by
  cases v with
  | strV t => simp [pyEqStr] at h; rw [h]
  | numV n => simp [pyEqStr] at h
  | nullV => simp [pyEqStr] at h

/-- Claim C10: `_validate_shapes_for_connection` compares `str(shape.ID)`
against the caller-supplied identifiers, so an identifier supplied as a
number never matches — `shapes_valid` is `false` with the shape-not-found
message even when a shape with exactly that id sits on the named page — and
a successful validation forces both identifiers to be the digit strings of
ids of shapes on the page. -/
theorem validate_shapes_string_id_comparison
    (doc : Document) (fromv tov pagev : IdVal) (page : Page)
    (hpage : doc.pages.find? (fun p => pyEqStr p.name pagev) = some page) :
    (∀ n : Int, fromv = IdVal.numV n → (∃ s ∈ page.shapes, s.id = n) →
      validate_shapes_for_connection doc fromv tov pagev =
        { valid := false,
          message := "Source shape with ID " ++ quoteMark ++ toString n ++ quoteMark
            ++ " not found on page " ++ quoteMark ++ pagev.render ++ quoteMark }) ∧
    ((validate_shapes_for_connection doc fromv tov pagev).valid = true →
      (∃ s ∈ page.shapes, fromv = IdVal.strV (toString s.id)) ∧
      (∃ s ∈ page.shapes, tov = IdVal.strV (toString s.id))) := by
  constructor
  · intro n hnum _
    subst hnum
    have hfst := findConnShapes_numV_fst n tov page.shapes none
    rcases hres : findConnShapes page.shapes none none (IdVal.numV n) tov with ⟨fSlot, tSlot⟩
    rw [hres] at hfst
    simp only at hfst
    subst hfst
    simp only [validate_shapes_for_connection, hpage, hres]
    rfl
  · intro hvalid
    rcases hres : findConnShapes page.shapes none none fromv tov with ⟨fSlot, tSlot⟩
    simp only [validate_shapes_for_connection, hpage, hres] at hvalid
    obtain ⟨spec1, spec2⟩ := findConnShapes_spec fromv tov page.shapes none none
    rw [hres] at spec1 spec2
    cases fSlot with
    | none => simp at hvalid
    | some a =>
        cases tSlot with
        | none => simp at hvalid
        | some b =>
            rcases spec1 a rfl with h | h
            · exact absurd h (by simp)
            · rcases spec2 b rfl with h2 | h2
              · exact absurd h2 (by simp)
              · exact ⟨⟨a, h.1, (pyEqStr_eq h.2).symm ▸ rfl⟩,
                       ⟨b, h2.1, (pyEqStr_eq h2.2).symm ▸ rfl⟩⟩

/-- A two-shape page for the validator witness. -/
def docV : Document :=
  { pages := [{ name := "Page-1", shapes := [mkShape 1 "A", mkShape 2 "B"] }],
    masters := [] }

/-- Witness for C10: on `docV`, whose page holds a shape with id 1, the
numeric identifier `1` still fails validation with the source-not-found
message. -/
theorem validate_shapes_string_id_comparison_witness :
    docV.pages.find? (fun p => pyEqStr p.name (IdVal.strV "Page-1")) =
      some { name := "Page-1", shapes := [mkShape 1 "A", mkShape 2 "B"] } ∧
    validate_shapes_for_connection docV (IdVal.numV 1) (IdVal.strV "2")
        (IdVal.strV "Page-1") =
      { valid := false,
        message := "Source shape with ID " ++ quoteMark ++ "1" ++ quoteMark
          ++ " not found on page " ++ quoteMark ++ "Page-1" ++ quoteMark } :=
  ⟨by decide,
   (validate_shapes_string_id_comparison docV (IdVal.numV 1) (IdVal.strV "2")
      (IdVal.strV "Page-1")
      { name := "Page-1", shapes := [mkShape 1 "A", mkShape 2 "B"] }
      (by decide)).1 1 rfl ⟨mkShape 1 "A", by decide, rfl⟩⟩

/-- A one-page document with a master stencil, for the mutation claims. -/
def docM : Document :=
  { pages := [{ name := "Page-1", shapes := [] }], masters := ["Square"] }

/-- Counterexample for C2: an `add_shapes` instruction addressing page 2 of
a one-page document — a missing page addressed by index — makes
`Pages.Item` raise, so the whole batch aborts with a top-level error result
and the following valid instruction is never applied (`doc = none`: no
mutated document is committed). -/
theorem modify_missing_page_index_counterexample :
    (modify_visio_diagram_result docM
      [DictEntry.addEntry
        [{ page_index := 2 }, { page_name := some "Page-1", text := "ok" }]]).status
      = "error" ∧
    (modify_visio_diagram_result docM
      [DictEntry.addEntry
        [{ page_index := 2 }, { page_name := some "Page-1", text := "ok" }]]).doc
      = none := by
  decide

/-- `findPageIdx` on a truthy page name that matches no page: the named
lookup yields no page and no error. -/
theorem findPageIdx_missing_name (doc : Document) (nm : String) (idx : Int)
    (hnm : nm ≠ "")
    (hmiss : doc.pages.findIdx? (fun p => p.name == nm) = none) :
    findPageIdx doc (some nm) idx = Except.ok none := by
  simp [findPageIdx, truthyStr, hnm, hmiss]

/-- `findPageIdx` on an untruthy page name and an out-of-range index:
`Pages.Item` raises. -/
theorem findPageIdx_bad_index (doc : Document) (pname : Option String) (idx : Int)
    (hname : truthyStr pname = false)
    (hidx : idx < 1 ∨ (doc.pages.length : Int) < idx) :
    findPageIdx doc pname idx =
      Except.error ("Invalid page index: " ++ toString idx) := by
  rw [findPageIdx, if_neg (by simp [hname]), if_neg (by omega)]

/-- Claim C2 (amended): an instruction of any of the four kinds whose page
is addressed by a *name* matching no page is skipped and the batch
continues identically on the remaining instructions; but an instruction
addressing a missing page by an out-of-range 1-based *index* aborts, and
the miss surfaces as a top-level error result for the batch. -/
theorem modify_missing_page_amended (doc : Document) (nm : String)
    (hnm : nm ≠ "")
    (hmiss : doc.pages.findIdx? (fun p => p.name == nm) = none) :
    (∀ (i : AddInstr) (rest : List AddInstr), i.page_name = some nm →
      add_shapes doc (i :: rest) = add_shapes doc rest) ∧
    (∀ (i : UpdInstr) (rest : List UpdInstr), i.page_name = some nm →
      update_shapes doc (i :: rest) = update_shapes doc rest) ∧
    (∀ (i : DelInstr) (rest : List DelInstr), i.page_name = some nm →
      delete_shapes doc (i :: rest) = delete_shapes doc rest) ∧
    (∀ (i : ConnInstr) (rest : List ConnInstr), i.page_name = some nm →
      add_connections doc (i :: rest) = add_connections doc rest) ∧
    (∀ (i : AddInstr), truthyStr i.page_name = false →
      (i.page_index < 1 ∨ (doc.pages.length : Int) < i.page_index) →
      (modify_visio_diagram_result doc [DictEntry.addEntry [i]]).status = "error") := by
  have hpage := findPageIdx_missing_name doc nm
  refine ⟨?_, ?_, ?_, ?_, ?_⟩
  · intro i rest hpn
    simp [add_shapes, addShapeInstr, hpn, hpage _ hnm hmiss]
    rfl
  · intro i rest hpn
    simp [update_shapes, updateShapeInstr, hpn, hpage _ hnm hmiss]
    rfl
  · intro i rest hpn
    simp [delete_shapes, deleteShapeInstr, hpn, hpage _ hnm hmiss]
    rfl
  · intro i rest hpn
    simp [add_connections, addConnectionInstr, hpn, hpage _ hnm hmiss]
    rfl
  · intro i hname hidx
    have herr := findPageIdx_bad_index doc i.page_name i.page_index hname hidx
    simp [modify_visio_diagram_result, modify_visio_diagram, hasAdds, getAdds,
      add_shapes, addShapeInstr, herr]

/-- Witness for C2: on `docM`, an add instruction naming the absent page
`Nope` is a skip (the batch equals the batch without it), while an add
instruction with `page_index = 5` yields a top-level error result. -/
theorem modify_missing_page_amended_witness :
    add_shapes docM [{ page_name := some "Nope" }] = add_shapes docM [] ∧
    (modify_visio_diagram_result docM
      [DictEntry.addEntry [{ page_index := 5 }]]).status = "error" :=
  ⟨(modify_missing_page_amended docM "Nope" (by decide) (by decide)).1
     { page_name := some "Nope" } [] rfl,
   (modify_missing_page_amended docM "Nope" (by decide) (by decide)).2.2.2.2
     { page_index := 5 } (by decide) (by decide)⟩

/-- Counterexample for C3: on `docM` (whose only master is `Square`), an
add instruction naming the absent master `Circle` adds nothing at all — the
document is returned unchanged, with its page still empty, instead of
receiving the claimed fallback rectangle. -/
theorem add_shapes_missing_master_counterexample :
    add_shapes docM
      [{ page_name := some "Page-1", master := some "Circle",
         x := 3, y := 3, text := "T" }] = Except.ok docM ∧
    docM.pages.map (fun p => p.shapes.length) = [0] :=
  ⟨rfl, by decide⟩

/-- Claim C3 (amended): when a named master is found, it is instantiated at
`(x, y)`; when a master is named but *not found*, the instruction adds
nothing (there is no fallback); only when no master is named is the default
2-by-1 rectangle drawn at `(x, y)`.  On both placing paths the optional
text is applied after placement (`applyTextIf`). -/
theorem add_shapes_master_fallback_amended (doc : Document) (i : AddInstr)
    (pi : Nat)
    (hp : findPageIdx doc i.page_name i.page_index = Except.ok (some pi)) :
    (∀ m, truthyStr i.master = true →
      doc.masters.find? (fun x => x == i.master.getD "") = some m →
      addShapeInstr doc i = Except.ok (doc.withPage pi (fun p =>
        { p with shapes := p.shapes ++ [applyTextIf i.text (dropMaster doc m i.x i.y)] }))) ∧
    (truthyStr i.master = true →
      doc.masters.find? (fun x => x == i.master.getD "") = none →
      addShapeInstr doc i = Except.ok doc) ∧
    (truthyStr i.master = false →
      addShapeInstr doc i = Except.ok (doc.withPage pi (fun p =>
        { p with shapes := p.shapes ++ [applyTextIf i.text (drawRectangle doc i.x i.y)] }))) := by
  refine ⟨?_, ?_, ?_⟩
  · intro m htr hfind
    simp [addShapeInstr, hp, htr, hfind]
  · intro htr hfind
    simp [addShapeInstr, hp, htr, hfind]
  · intro htr
    simp [addShapeInstr, hp, htr]

/-- Witness for C3: on `docM`, an instruction naming no master draws the
default rectangle (text application included) on the resolved page. -/
theorem add_shapes_master_fallback_amended_witness :
    findPageIdx docM (some "Page-1") 1 = Except.ok (some 0) ∧
    addShapeInstr docM { page_name := some "Page-1" } =
      Except.ok (docM.withPage 0 (fun p =>
        { p with shapes := p.shapes ++ [applyTextIf "" (drawRectangle docM 4 4)] })) :=
  ⟨rfl,
   (add_shapes_master_fallback_amended docM { page_name := some "Page-1" } 0
      rfl).2.2 (by decide)⟩

/-- Claim C9: an `update_shapes` instruction resolved to one shape rewrites
exactly that shape in place: the text changes only when a `"text"` key is
present, the position only when a `"position"` key with both coordinates is
present; the shape's identity fields (`id`, `name`, type, size, connects)
are untouched, and every other shape and every other page of the document
is left unchanged. -/
theorem update_shapes_frame (doc : Document) (i : UpdInstr) (pi k : Nat)
    (page : Page) (s : Shape)
    (hp : findPageIdx doc i.page_name i.page_index = Except.ok (some pi))
    (hpg : doc.pages[pi]? = some page)
    (hk : findShapeIdx page i.shape_id i.shape_name = some k)
    (hs : page.shapes[k]? = some s) :
    update_shapes doc [i] =
      Except.ok { doc with
        pages := doc.pages.set pi
          { page with shapes := page.shapes.set k (applyUpdate i s) } } ∧
    ((applyUpdate i s).id = s.id ∧ (applyUpdate i s).name = s.name ∧
     (applyUpdate i s).shapeType = s.shapeType ∧
     (applyUpdate i s).width = s.width ∧ (applyUpdate i s).height = s.height ∧
     (applyUpdate i s).connects = s.connects) ∧
    (i.text = none → (applyUpdate i s).text = s.text) ∧
    (i.position = none →
      (applyUpdate i s).pinX = s.pinX ∧ (applyUpdate i s).pinY = s.pinY) ∧
    (∀ p, i.position = some p → (p.x = none ∨ p.y = none) →
      (applyUpdate i s).pinX = s.pinX ∧ (applyUpdate i s).pinY = s.pinY) ∧
    (∀ j, j ≠ pi →
      (doc.pages.set pi
          { page with shapes := page.shapes.set k (applyUpdate i s) })[j]? =
        doc.pages[j]?) ∧
    (∀ j, j ≠ k → (page.shapes.set k (applyUpdate i s))[j]? = page.shapes[j]?) := by
  refine ⟨?_, ?_, ?_, ?_, ?_, ?_, ?_⟩
  · simp [update_shapes, updateShapeInstr, hp, hpg, hk, hs, Document.withPage]
  · rcases i with ⟨pn, pidx, sid, snm, itext, ipos⟩
    rcases ipos with _ | ⟨px, py⟩
    · cases itext <;> simp [applyUpdate]
    · cases itext <;> cases px <;> cases py <;> simp [applyUpdate]
  · intro ht
    rcases i with ⟨_, _, _, _, itext, ipos⟩
    cases itext with
    | none =>
        rcases ipos with _ | ⟨⟨px, py⟩⟩
        · simp [applyUpdate]
        · cases px <;> cases py <;> simp [applyUpdate]
    | some t => simp at ht
  · intro hpos
    rcases i with ⟨_, _, _, _, itext, ipos⟩
    cases ipos with
    | none => cases itext <;> simp [applyUpdate]
    | some p => simp at hpos
  · intro p hpos hxy
    rcases i with ⟨_, _, _, _, itext, ipos⟩
    cases ipos with
    | none => simp at hpos
    | some q =>
        have hq : q = p := by simpa using hpos
        subst hq
        rcases q with ⟨px, py⟩
        rcases hxy with hx | hy
        · have : px = none := by simpa using hx
          subst this
          cases itext <;> cases py <;> simp [applyUpdate]
        · have : py = none := by simpa using hy
          subst this
          cases itext <;> cases px <;> simp [applyUpdate]
  · intro j hj
    exact List.getElem?_set_ne (fun h => hj h.symm)
  · intro j hj
    exact List.getElem?_set_ne (fun h => hj h.symm)

/-- A document for the update witness: one page, two shapes. -/
def docU : Document :=
  { pages := [{ name := "Page-1", shapes := [mkShape 1 "A", mkShape 2 "B"] }],
    masters := [] }

/-- The update instruction of the witness: set the text of shape 2, leave
its position alone. -/
def updU : UpdInstr :=
  { page_name := some "Page-1", shape_id := some 2, text := some "new" }

/-- Witness for C9 on `docU`: updating shape 2's text rewrites only that
shape; its position is untouched because no `"position"` key is present. -/
theorem update_shapes_frame_witness :
    update_shapes docU [updU] =
      Except.ok { docU with
        pages := docU.pages.set 0
          { name := "Page-1",
            shapes := [mkShape 1 "A",
              mkShape 2 "B"].set 1 (applyUpdate updU (mkShape 2 "B")) } } ∧
    (applyUpdate updU (mkShape 2 "B")).pinX = (mkShape 2 "B").pinX ∧
    (applyUpdate updU (mkShape 2 "B")).pinY = (mkShape 2 "B").pinY :=
  ⟨(update_shapes_frame docU updU 0 1
      { name := "Page-1", shapes := [mkShape 1 "A", mkShape 2 "B"] }
      (mkShape 2 "B") rfl rfl rfl rfl).1,
   (update_shapes_frame docU updU 0 1
      { name := "Page-1", shapes := [mkShape 1 "A", mkShape 2 "B"] }
      (mkShape 2 "B") rfl rfl rfl rfl).2.2.2.1 rfl⟩

/-- `any` is permutation-invariant. -/
theorem perm_any {α : Type} {l₁ l₂ : List α} (h : l₁.Perm l₂) (p : α → Bool) :
    l₁.any p = l₂.any p := by
  cases h1 : l₁.any p <;> cases h2 : l₂.any p <;> try rfl
  · exfalso
    rw [List.any_eq_true] at h2
    obtain ⟨a, ha, hpa⟩ := h2
    have hcontra : l₁.any p = true := List.any_eq_true.mpr ⟨a, h.mem_iff.mpr ha, hpa⟩
    rw [h1] at hcontra
    exact Bool.false_ne_true hcontra
  · exfalso
    rw [List.any_eq_true] at h1
    obtain ⟨a, ha, hpa⟩ := h1
    have hcontra : l₂.any p = true := List.any_eq_true.mpr ⟨a, h.mem_iff.mp ha, hpa⟩
    rw [h2] at hcontra
    exact Bool.false_ne_true hcontra

/-- `find?` is permutation-invariant when at most one element satisfies the
predicate. -/
theorem find?_eq_of_perm_countP_le_one {α : Type} (p : α → Bool)
    {l₁ l₂ : List α} (h : l₁.Perm l₂) :
    l₁.countP p ≤ 1 → l₁.find? p = l₂.find? p := by
  induction h with
  | nil => intro _; rfl
  | cons x h ih =>
      intro hc
      by_cases hx : p x = true
      · rw [List.find?_cons_of_pos _ hx, List.find?_cons_of_pos _ hx]
      · rw [List.find?_cons_of_neg _ (by simp [hx]),
            List.find?_cons_of_neg _ (by simp [hx])]
        apply ih
        rw [List.countP_cons] at hc
        omega
  | swap x y l =>
      intro hc
      rw [List.countP_cons, List.countP_cons] at hc
      by_cases hy : p y = true <;> by_cases hx : p x = true
      · exfalso; simp [hx, hy] at hc
      · rw [List.find?_cons_of_pos _ hy, List.find?_cons_of_neg _ (by simp [hx]),
            List.find?_cons_of_pos _ hy]
      · rw [List.find?_cons_of_neg _ (by simp [hy]), List.find?_cons_of_pos _ hx,
            List.find?_cons_of_pos _ hx]
      · rw [List.find?_cons_of_neg _ (by simp [hy]),
            List.find?_cons_of_neg _ (by simp [hx]),
            List.find?_cons_of_neg _ (by simp [hx]),
            List.find?_cons_of_neg _ (by simp [hy])]
  | trans h₁ h₂ ih₁ ih₂ =>
      intro hc
      refine (ih₁ hc).trans (ih₂ ?_)
      rw [← h₁.countP_eq]
      exact hc

/-- With pairwise-distinct keys, at most one entry satisfies a predicate
that answers exactly "does this entry carry key `key`". -/
theorem countP_key_le_one (m : List DictEntry)
    (hnd : (m.map entryKey).Nodup) (key : String) (p : DictEntry → Bool)
    (hp : ∀ e, p e = (entryKey e == key)) : m.countP p ≤ 1 := by
  have h1 : m.countP p = m.countP (fun e => entryKey e == key) :=
    List.countP_congr (fun a _ => by rw [hp a])
  have h2 : m.countP (fun e => entryKey e == key) =
      (m.map entryKey).countP (fun s => s == key) := by
    rw [List.countP_map]
    rfl
  have h3 : (m.map entryKey).countP (fun s => s == key) =
      (m.map entryKey).count key := rfl
  rw [h1, h2, h3]
  exact List.nodup_iff_count_le_one.mp hnd key

/-- Claim C4: the four instruction lists of a modification batch are applied
in the fixed program order — adds, updates, deletes, connections — so
reordering the keys of the instructions object (a permutation with distinct
keys) cannot change the result of `modify_visio_diagram`. -/
theorem modify_order_fixed (doc : Document) (m₁ m₂ : List DictEntry)
    (hperm : m₁.Perm m₂) (hnd : (m₁.map entryKey).Nodup) :
    modify_visio_diagram doc m₁ = modify_visio_diagram doc m₂ := by
  have hadd := perm_any hperm
    (fun e => match e with | DictEntry.addEntry _ => true | _ => false)
  have hupd := perm_any hperm
    (fun e => match e with | DictEntry.updEntry _ => true | _ => false)
  have hdel := perm_any hperm
    (fun e => match e with | DictEntry.delEntry _ => true | _ => false)
  have hconn := perm_any hperm
    (fun e => match e with | DictEntry.connEntry _ => true | _ => false)
  have gadd : getAdds m₁ = getAdds m₂ := by
    unfold getAdds
    rw [find?_eq_of_perm_countP_le_one _ hperm
      (countP_key_le_one m₁ hnd "add_shapes" _ (fun e => by cases e <;> rfl))]
  have gupd : getUpds m₁ = getUpds m₂ := by
    unfold getUpds
    rw [find?_eq_of_perm_countP_le_one _ hperm
      (countP_key_le_one m₁ hnd "update_shapes" _ (fun e => by cases e <;> rfl))]
  have gdel : getDels m₁ = getDels m₂ := by
    unfold getDels
    rw [find?_eq_of_perm_countP_le_one _ hperm
      (countP_key_le_one m₁ hnd "delete_shapes" _ (fun e => by cases e <;> rfl))]
  have gconn : getConns m₁ = getConns m₂ := by
    unfold getConns
    rw [find?_eq_of_perm_countP_le_one _ hperm
      (countP_key_le_one m₁ hnd "add_connections" _ (fun e => by cases e <;> rfl))]
  unfold modify_visio_diagram hasAdds hasUpds hasDels hasConns
  rw [hadd, hupd, hdel, hconn, gadd, gupd, gdel, gconn]

/-- The connections-before-adds key order of the C4 witness. -/
def mConnFirst : List DictEntry :=
  [DictEntry.connEntry
     [{ page_name := some "Page-1", from_shape_id := some 1, to_shape_id := some 2 }],
   DictEntry.addEntry [{ page_name := some "Page-1", text := "C" }]]

/-- The same batch with the keys in schema order. -/
def mAddFirst : List DictEntry :=
  [DictEntry.addEntry [{ page_name := some "Page-1", text := "C" }],
   DictEntry.connEntry
     [{ page_name := some "Page-1", from_shape_id := some 1, to_shape_id := some 2 }]]

/-- Witness for C4: on `docW`, listing `add_connections` before
`add_shapes` in the instructions object changes nothing. -/
theorem modify_order_fixed_witness :
    mConnFirst.Perm mAddFirst ∧
    modify_visio_diagram docW mConnFirst = modify_visio_diagram docW mAddFirst :=
  ⟨List.Perm.swap _ _ _,
   modify_order_fixed docW mConnFirst mAddFirst (List.Perm.swap _ _ _) (by decide)⟩
